import Mathlib

/-!
Verification of the liability calculation engine of the wage liability risk
assessment application (`src/app.py`).

Modelling conventions used throughout this development:

* Python `float` arithmetic is modelled by exact rational arithmetic (`ℚ`);
  decimal literals such as `0.08`, `4.33`, `365.25` denote the corresponding
  exact rationals.
* Python `date` values are modelled by their proleptic-Gregorian ordinal day
  number (an `ℤ`); subtraction of two Python dates yields exactly the
  difference of their ordinals, so `(today - start).days` becomes
  `today - start` on `ℤ`.  The reference date (`date.today()` in the source)
  is passed explicitly as a `RefDate` context carrying the ordinal of today
  and the number of elapsed days since January 1 of the current year
  (`(today - date(today.year, 1, 1)).days`).
* Python `//` (floor division) is `Int.fdiv`; Python `int()` applied to a
  float truncates toward zero, modelled by `truncToward0`.
* The untyped rule dictionaries of `COUNTRY_RULES` are modelled by structures
  whose fields are `Option`-valued: a key that is absent from a dictionary is
  a `none` field, and `dict.get(k, d)` becomes `field.getD d`.  Fields that
  are present in the data but never read by the engine (for example the
  `"tenure"` labels on Singapore's tiers) are kept in the model, unread.
* Python functions may raise exceptions, so the two public entry points named
  in the specification's error-handling section are given `Except`-valued
  signatures; their bodies, translated from the source, never produce an
  error value.
* `str.title()` applied to the single lowercase words `"high"`, `"medium"`,
  `"low"` coincides with `String.capitalize`.
* Alert strings are modelled as a tagged `Alert` value carrying the data that
  the source interpolates into the f-string; the literal text around the
  interpolated values is presentation only.
-/

namespace WageRisk

/-- Python `int()` on a float: truncation toward zero. -/
def truncToward0 (q : ℚ) : ℤ :=
  if 0 ≤ q then ⌊q⌋ else ⌈q⌉

/-- Error kinds named by the specification (section 7). -/
inductive EngineError where
  | InvalidDateError
  | UnknownCountryError
  | UnknownCurrencyError
deriving DecidableEq, Repr

/-- One entry of a `"tiers"` list in a notice-period rule.  `max_months` and
`tenure_label` are present in the source data (France / Singapore) but never
read by the engine. -/
structure Tier where
  min_months : Option ℤ := none
  max_months : Option ℤ := none
  min_years : Option ℤ := none
  days : Option ℤ := none
  weeks : Option ℤ := none
  weeks_per_year : Option ℤ := none
  max_weeks : Option ℤ := none
  months : Option ℤ := none
  tenure_label : Option String := none
deriving DecidableEq, Repr

/-- The `"notice_period"` dictionary of a country rule.  `over_45_extra_week`
is present in the Australian data but never read by the engine. -/
structure NoticeConfig where
  base_days : Option ℤ := none
  additional_days_per_year : Option ℤ := none
  max_days : Option ℤ := none
  tiers : Option (List Tier) := none
  typical_days : Option ℤ := none
  senior_days : Option ℤ := none
  standard_days : Option ℤ := none
  days : Option ℤ := none
  over_45_extra_week : Option Bool := none
deriving DecidableEq, Repr

/-- The `"severance"` dictionary of a country rule. -/
structure SevConfig where
  formula : Option String := none
  formula_type : Option String := none
  fgts_penalty_percent : Option ℚ := none
  min_tenure_months : Option ℤ := none
  min_tenure_years : Option ℤ := none
  months_per_year : Option ℚ := none
  weeks_per_year : Option ℚ := none
  weekly_cap : Option ℚ := none
  max_years : Option ℚ := none
  max_eur : Option ℚ := none
  constitutional_months : Option ℚ := none
  seniority_days_per_year : Option ℚ := none
  scale : Option (List ℤ) := none
deriving DecidableEq, Repr

/-- The `"statutory_bonuses"` dictionary of a country rule.  `month13` models
the `"13th_month"` key.  `paid_leave_days_per_month` (France) and
`vacation_premium_percent` (Mexico) are present in the data but never read by
the engine. -/
structure BonusConfig where
  month13 : Option Bool := none
  vacation_bonus : Option ℚ := none
  paid_leave_days_per_month : Option ℚ := none
  aguinaldo_days : Option ℚ := none
  vacation_premium_percent : Option ℚ := none
  holiday_allowance_percent : Option ℚ := none
  statutory_bonus_percent : Option ℚ := none
  salary_cap : Option ℚ := none
deriving DecidableEq, Repr

/-- One value of the `COUNTRY_RULES` mapping.  All fields are optional with
empty defaults so that the empty dictionary used for unknown country codes is
`{}`. -/
structure CountryRule where
  name : Option String := none
  currency : Option String := none
  notice_period : NoticeConfig := {}
  severance : SevConfig := {}
  statutory_bonuses : BonusConfig := {}
  legal_risk : Option String := none
deriving DecidableEq, Repr


def frTiers : List Tier :=
  [ { min_months := some 0, max_months := some 6, days := some 0 },
    { min_months := some 6, max_months := some 24, days := some 30 },
    { min_months := some 24, max_months := some 999, days := some 60 } ]

def deTiers : List Tier :=
  [ { min_years := some 0, weeks := some 4 },
    { min_years := some 2, weeks := some 4 },
    { min_years := some 5, weeks := some 8 },
    { min_years := some 8, weeks := some 12 },
    { min_years := some 10, weeks := some 16 },
    { min_years := some 15, weeks := some 24 },
    { min_years := some 20, weeks := some 28 } ]

def gbTiers : List Tier :=
  [ { min_years := some 0, weeks := some 1 },
    { min_years := some 2, weeks_per_year := some 1, max_weeks := some 12 } ]

def nlTiers : List Tier :=
  [ { min_years := some 0, months := some 1 },
    { min_years := some 5, months := some 2 },
    { min_years := some 10, months := some 3 },
    { min_years := some 15, months := some 4 } ]

def sgTiers : List Tier :=
  [ { tenure_label := some "< 26 weeks", days := some 1 },
    { tenure_label := some "26w - 2y", weeks := some 1 },
    { tenure_label := some "2y - 5y", weeks := some 2 },
    { tenure_label := some "5y+", weeks := some 4 } ]

def auTiers : List Tier :=
  [ { min_years := some 1, weeks := some 1 },
    { min_years := some 3, weeks := some 2 },
    { min_years := some 5, weeks := some 3 },
    { min_years := some 999, weeks := some 4 } ]

def brRule : CountryRule :=
  { name := some "Brazil", currency := some "BRL",
    notice_period := { base_days := some 30, additional_days_per_year := some 3,
                       max_days := some 90 },
    severance := { formula_type := some "fgts_based", fgts_penalty_percent := some 40 },
    statutory_bonuses := { month13 := some true, vacation_bonus := some 33.33 },
    legal_risk := some "high" }

def frRule : CountryRule :=
  { name := some "France", currency := some "EUR",
    notice_period := { tiers := some frTiers },
    severance := { formula := some "tiered", min_tenure_months := some 8 },
    statutory_bonuses := { paid_leave_days_per_month := some 2.5 },
    legal_risk := some "medium" }

def deRule : CountryRule :=
  { name := some "Germany", currency := some "EUR",
    notice_period := { tiers := some deTiers },
    severance := { formula := some "market_practice", months_per_year := some 0.5 },
    statutory_bonuses := {},
    legal_risk := some "medium" }

def inRule : CountryRule :=
  { name := some "India", currency := some "INR",
    notice_period := { typical_days := some 30, senior_days := some 90 },
    severance := { formula := some "gratuity", min_tenure_years := some 5 },
    statutory_bonuses := { statutory_bonus_percent := some 8.33, salary_cap := some 21000 },
    legal_risk := some "low" }

def phRule : CountryRule :=
  { name := some "Philippines", currency := some "PHP",
    notice_period := { standard_days := some 30 },
    severance := { formula := some "one_month_per_year" },
    statutory_bonuses := { month13 := some true },
    legal_risk := some "medium" }

def mxRule : CountryRule :=
  { name := some "Mexico", currency := some "MXN",
    notice_period := { days := some 0 },
    severance := { constitutional_months := some 3, seniority_days_per_year := some 12 },
    statutory_bonuses := { aguinaldo_days := some 15, vacation_premium_percent := some 25 },
    legal_risk := some "high" }

def gbRule : CountryRule :=
  { name := some "United Kingdom", currency := some "GBP",
    notice_period := { tiers := some gbTiers },
    severance := { formula := some "statutory_redundancy", weekly_cap := some 700,
                   max_years := some 20 },
    statutory_bonuses := {},
    legal_risk := some "medium" }

def nlRule : CountryRule :=
  { name := some "Netherlands", currency := some "EUR",
    notice_period := { tiers := some nlTiers },
    severance := { formula := some "transition_payment", months_per_year := some 0.33,
                   max_eur := some 94000 },
    statutory_bonuses := { holiday_allowance_percent := some 8 },
    legal_risk := some "medium" }

def sgRule : CountryRule :=
  { name := some "Singapore", currency := some "SGD",
    notice_period := { tiers := some sgTiers },
    severance := { formula := some "market_practice", weeks_per_year := some 2,
                   min_tenure_years := some 2 },
    statutory_bonuses := {},
    legal_risk := some "low" }

def auRule : CountryRule :=
  { name := some "Australia", currency := some "AUD",
    notice_period := { tiers := some auTiers, over_45_extra_week := some true },
    severance := { formula := some "nse_scale",
                   scale := some [4, 6, 7, 8, 10, 11, 12, 13, 14, 15, 16] },
    statutory_bonuses := {},
    legal_risk := some "medium" }

def COUNTRY_RULES : List (String × CountryRule) :=
  [ ("BR", brRule), ("FR", frRule), ("DE", deRule), ("IN", inRule), ("PH", phRule),
    ("MX", mxRule), ("GB", gbRule), ("NL", nlRule), ("SG", sgRule), ("AU", auRule) ]

def FX_RATES : List (String × ℚ) :=
  [ ("BRL", 5.85), ("EUR", 0.92), ("INR", 83.50), ("PHP", 56.80),
    ("MXN", 17.25), ("GBP", 0.79), ("SGD", 1.34), ("AUD", 1.55), ("USD", 1.0) ]

def FX_VOLATILITY : List (String × ℚ) :=
  [ ("BRL", 0.18), ("EUR", 0.04), ("INR", 0.08), ("PHP", 0.06),
    ("MXN", 0.14), ("GBP", 0.05), ("SGD", 0.03), ("AUD", 0.07) ]

/-- An employee record, with the fields read by the engine plus the unread
`department`/`age` fields carried by the sample data.  `start_day` is the
ordinal day number of the `"start_date"` string. -/
structure Employee where
  employee_id : String
  name : String
  country_code : String
  start_day : ℤ
  monthly_salary_local : ℚ
  currency : String
  department : String := ""
  job_level : String := ""
  age : ℤ := 0
deriving DecidableEq, Repr

/-- The evaluation context: `date.today()` as an ordinal day number, together
with `(today - date(today.year, 1, 1)).days`. -/
structure RefDate where
  day : ℤ
  daysSinceJan1 : ℕ
deriving DecidableEq, Repr

/-- Fractional tenure years: `days / 365.25`. -/
def yearsOf (days : ℤ) : ℚ := (days : ℚ) / 365.25

/-- Whole tenure months: `days // 30` (Python floor division). -/
def monthsOf (days : ℤ) : ℤ := Int.fdiv days 30

/-- Core of `calculate_tenure`: `(days, months, years)` for a hire date and a
reference date, both as ordinal day numbers. -/
def tenure (todayDay startDay : ℤ) : ℤ × ℤ × ℚ :=
  (todayDay - startDay, monthsOf (todayDay - startDay), yearsOf (todayDay - startDay))

/-- `calculate_tenure` (src/app.py:186-193).  The body contains no raising
path, so the result is always `Except.ok`. -/
def calculate_tenure (todayDay startDay : ℤ) : Except EngineError (ℤ × ℤ × ℚ) :=
  Except.ok (tenure todayDay startDay)

/-- `convert_to_usd` (src/app.py:196-199). -/
def convert_to_usd (amount : ℚ) (currency : String) : ℚ :=
  if (FX_RATES.lookup currency).getD 1.0 ≠ 0 then
    amount / (FX_RATES.lookup currency).getD 1.0
  else amount

/-- `get_volatility_rating` (src/app.py:202-209). -/
def get_volatility_rating (currency : String) : String :=
  if 0.12 ≤ (FX_VOLATILITY.lookup currency).getD 0.10 then "High"
  else if 0.06 ≤ (FX_VOLATILITY.lookup currency).getD 0.10 then "Medium"
  else "Low"

def seniorLevels : List String := ["director", "head", "principal", "lead"]

/-- One iteration of the tier loop in `calculate_notice_period`
(src/app.py:226-238): a tier that matches overwrites the accumulator
(last satisfied tier wins), any other tier leaves it unchanged. -/
def tierStep (tenureMonths : ℤ) (tenureYears : ℚ) (acc : ℤ) (t : Tier) : ℤ :=
  match t.min_months with
  | some mm => if mm ≤ tenureMonths then t.days.getD 0 else acc
  | none =>
    match t.min_years with
    | some my =>
      if (my : ℚ) ≤ tenureYears then
        match t.weeks with
        | some w => w * 7
        | none =>
          match t.weeks_per_year with
          | some wpy => (min (truncToward0 tenureYears * wpy) (t.max_weeks.getD 12)) * 7
          | none =>
            match t.months with
            | some m => m * 30
            | none => acc
      else acc
    | none => acc

/-- Notice-days dispatch of `calculate_notice_period` (src/app.py:217-246),
as a function of the notice configuration, the job level and the tenure. -/
def noticeDays (cfg : NoticeConfig) (jobLevel : String) (tenureMonths : ℤ)
    (tenureYears : ℚ) : ℤ :=
  match cfg.base_days with
  | some base =>
    min (base + truncToward0 (tenureYears * (cfg.additional_days_per_year.getD 0 : ℚ)))
      (cfg.max_days.getD 90)
  | none =>
    match cfg.tiers with
    | some ts => ts.foldl (tierStep tenureMonths tenureYears) 0
    | none =>
      match cfg.typical_days with
      | some td =>
        if seniorLevels.contains jobLevel then cfg.senior_days.getD td else td
      | none =>
        match cfg.standard_days with
        | some sd => sd
        | none => cfg.days.getD 0

/-- `calculate_notice_period` (src/app.py:212-248): notice days and
notice cost `days * (monthly_salary / 22)`. -/
def calculate_notice_period (ctx : RefDate) (emp : Employee) (country : CountryRule) :
    ℤ × ℚ :=
  let t := tenure ctx.day emp.start_day
  let nd := noticeDays country.notice_period emp.job_level t.2.1 t.2.2
  (nd, (nd : ℚ) * (emp.monthly_salary_local / 22))

/-- Resolution of the formula tag:
`sev_config.get("formula", sev_config.get("formula_type", ""))`. -/
def sevFormulaOf (cfg : SevConfig) : String :=
  cfg.formula.getD (cfg.formula_type.getD "")

/-- Severance dispatch of `calculate_severance` (src/app.py:251-319), as a
function of the severance configuration, the salary and the tenure. -/
def calcSeverance (cfg : SevConfig) (salary : ℚ) (tenureMonths : ℤ)
    (tenureYears : ℚ) : ℚ :=
  if tenureMonths < cfg.min_tenure_months.getD 0 ∨
      tenureYears < (cfg.min_tenure_years.getD 0 : ℚ) then 0
  else if sevFormulaOf cfg = "fgts_based" then
    (salary * 0.08 * 12 * tenureYears) * (cfg.fgts_penalty_percent.getD 40 / 100)
  else if sevFormulaOf cfg = "tiered" then
    (if tenureYears ≤ 10 then 0.25 * salary * tenureYears
     else 0.25 * salary * 10 + 0.33 * salary * (tenureYears - 10))
  else if sevFormulaOf cfg = "market_practice" then
    (if cfg.weeks_per_year.getD 0 ≠ 0 then
       (salary / 4.33) * cfg.weeks_per_year.getD 0 * tenureYears
     else cfg.months_per_year.getD 0.5 * salary * tenureYears)
  else if sevFormulaOf cfg = "gratuity" then
    (if (5 : ℚ) ≤ tenureYears then 15 * (salary / 26) * tenureYears else 0)
  else if sevFormulaOf cfg = "one_month_per_year" then
    salary * max 1 tenureYears
  else
    match cfg.constitutional_months with
    | some cm =>
      cm * salary + (salary / 30) * cfg.seniority_days_per_year.getD 12 * tenureYears
    | none =>
      if sevFormulaOf cfg = "statutory_redundancy" then
        min (salary / 4.33) (cfg.weekly_cap.getD 700) *
          min tenureYears (cfg.max_years.getD 20)
      else if sevFormulaOf cfg = "transition_payment" then
        min (cfg.months_per_year.getD 0.33 * salary * tenureYears)
          (cfg.max_eur.getD 94000)
      else if sevFormulaOf cfg = "nse_scale" then
        (if (1 : ℚ) ≤ tenureYears ∧ cfg.scale.getD [] ≠ [] then
           (salary / 4.33) *
             (((cfg.scale.getD []).getD
                 (min (truncToward0 tenureYears - 1)
                   ((cfg.scale.getD []).length - 1 : ℤ)).toNat 0 : ℤ) : ℚ)
         else 0)
      else 0

/-- `calculate_severance` (src/app.py:251-319). -/
def calculate_severance (ctx : RefDate) (emp : Employee) (country : CountryRule) : ℚ :=
  let t := tenure ctx.day emp.start_day
  calcSeverance country.severance emp.monthly_salary_local t.2.1 t.2.2

/-- Statutory-bonus accrual of `calculate_statutory_bonuses`
(src/app.py:322-352): each applicable bonus rule adds its prorated
contribution, with `year_progress = daysSinceJan1 / 365`. -/
def calcBonuses (cfg : BonusConfig) (salary : ℚ) (daysSinceJan1 : ℕ) : ℚ :=
  (if cfg.month13.getD false then salary * ((daysSinceJan1 : ℚ) / 365) else 0) +
  (match cfg.aguinaldo_days with
   | some d => (salary / 30) * d * ((daysSinceJan1 : ℚ) / 365)
   | none => 0) +
  (match cfg.holiday_allowance_percent with
   | some p => salary * 12 * (p / 100) * ((daysSinceJan1 : ℚ) / 365)
   | none => 0) +
  (match cfg.statutory_bonus_percent with
   | some p =>
     min salary (cfg.salary_cap.getD salary) * 12 * (p / 100) *
       ((daysSinceJan1 : ℚ) / 365)
   | none => 0) +
  (match cfg.vacation_bonus with
   | some p => salary * (p / 100) * ((daysSinceJan1 : ℚ) / 365)
   | none => 0)

/-- `calculate_statutory_bonuses` (src/app.py:322-352). -/
def calculate_statutory_bonuses (ctx : RefDate) (emp : Employee)
    (country : CountryRule) : ℚ :=
  calcBonuses country.statutory_bonuses emp.monthly_salary_local ctx.daysSinceJan1

/-- The `accrual_rates` table of `calculate_vacation_accrual`
(src/app.py:362-365). -/
def accrual_rates : List (String × ℚ) :=
  [ ("BR", 30), ("FR", 25), ("DE", 20), ("IN", 21), ("PH", 5),
    ("MX", 12), ("GB", 28), ("NL", 20), ("SG", 14), ("AU", 20) ]

/-- `calculate_vacation_accrual` (src/app.py:355-371). -/
def calculate_vacation_accrual (ctx : RefDate) (emp : Employee)
    (country_code : String) : ℚ :=
  ((accrual_rates.lookup country_code).getD 20 / 365 * (ctx.daysSinceJan1 : ℚ)) *
    (emp.monthly_salary_local / 22)

/-- The `legal_scores` table of `calculate_employee_liability`
(src/app.py:390). -/
def legal_scores : List (String × ℚ) :=
  [ ("high", 0.9), ("medium", 0.5), ("low", 0.2) ]

/-- The liability-breakdown record produced per employee
(src/app.py:394-411). -/
structure LiabilityResult where
  employee_id : String
  name : String
  country_code : String
  country_name : String
  currency : String
  notice_days : ℤ
  notice_cost : ℚ
  severance : ℚ
  bonuses : ℚ
  vacation : ℚ
  total_local : ℚ
  total_usd : ℚ
  risk_score : ℚ
  fx_volatility : String
  legal_risk : String
  tenure_years : ℚ
deriving DecidableEq, Repr

/-- Body of `calculate_employee_liability` (src/app.py:374-411).  An unknown
country code resolves to the empty rule set `{}` via
`COUNTRY_RULES.get(country_code, {})`. -/
def employeeLiability (ctx : RefDate) (emp : Employee) : LiabilityResult :=
  let country := (COUNTRY_RULES.lookup emp.country_code).getD {}
  let np := calculate_notice_period ctx emp country
  let severance := calculate_severance ctx emp country
  let bonuses := calculate_statutory_bonuses ctx emp country
  let vacation := calculate_vacation_accrual ctx emp emp.country_code
  let total_local := np.2 + severance + bonuses + vacation
  let total_usd := convert_to_usd total_local emp.currency
  let liability_score := min (total_usd / 100000) 1.0 * 35
  let fx_score := (FX_VOLATILITY.lookup emp.currency).getD 0.10 / 0.20 * 25
  let legal_score := (legal_scores.lookup (country.legal_risk.getD "medium")).getD 0.5 * 15
  let risk_score := min (liability_score + fx_score + legal_score + 10) 100
  { employee_id := emp.employee_id
    name := emp.name
    country_code := emp.country_code
    country_name := country.name.getD emp.country_code
    currency := emp.currency
    notice_days := np.1
    notice_cost := np.2
    severance := severance
    bonuses := bonuses
    vacation := vacation
    total_local := total_local
    total_usd := total_usd
    risk_score := risk_score
    fx_volatility := get_volatility_rating emp.currency
    legal_risk := (country.legal_risk.getD "medium").capitalize
    tenure_years := (tenure ctx.day emp.start_day).2.2 }

/-- `calculate_employee_liability` (src/app.py:374-411).  The body contains no
raising path, so the result is always `Except.ok`. -/
def calculate_employee_liability (ctx : RefDate) (emp : Employee) :
    Except EngineError LiabilityResult :=
  Except.ok (employeeLiability ctx emp)

/-- One per-country rollup of `calculate_portfolio` (src/app.py:421-437).
`percent` is `0` until the percentage pass fills it in. -/
structure CountryRollup where
  country_name : String
  employee_count : ℕ
  total_usd : ℚ
  employees : List String
  percent : ℚ
deriving DecidableEq, Repr

/-- Folding one employee result into the insertion-ordered `by_country`
association list (src/app.py:422-433): an existing entry for the country is
updated in place, otherwise a fresh entry is appended. -/
def addResult (acc : List (String × CountryRollup)) (r : LiabilityResult) :
    List (String × CountryRollup) :=
  match acc with
  | [] =>
    [(r.country_code,
      { country_name := r.country_name, employee_count := 1, total_usd := r.total_usd,
        employees := [r.employee_id], percent := 0 })]
  | (c, d) :: rest =>
    if c = r.country_code then
      (c, { d with employee_count := d.employee_count + 1,
                   total_usd := d.total_usd + r.total_usd,
                   employees := d.employees ++ [r.employee_id] }) :: rest
    else (c, d) :: addResult rest r

/-- An alert emitted by `calculate_portfolio` (src/app.py:440-449), carrying
the values the source interpolates into the alert string. -/
inductive Alert where
  | concentration (country_name : String) (percent : ℚ)
  | highExposure (name : String) (total_usd : ℚ)
  | fxRisk (name : String) (currency : String)
deriving DecidableEq, Repr

/-- The portfolio aggregation record (src/app.py:451-459). -/
structure PortfolioResult where
  employees : List LiabilityResult
  by_country : List (String × CountryRollup)
  total_liability_usd : ℚ
  total_employees : ℕ
  high_risk_count : ℕ
  avg_risk_score : ℚ
  alerts : List Alert
deriving DecidableEq, Repr

/-- `calculate_portfolio` (src/app.py:414-459). -/
def calculate_portfolio (ctx : RefDate) (employees : List Employee) : PortfolioResult :=
  let results := employees.map (employeeLiability ctx)
  let total_liability := (results.map (fun r => r.total_usd)).sum
  let byCountry0 := results.foldl addResult []
  let by_country := byCountry0.map (fun p =>
    (p.1, { p.2 with percent :=
      if 0 < total_liability then p.2.total_usd / total_liability * 100 else 0 }))
  let alerts :=
    by_country.filterMap (fun p =>
      if 30 < p.2.percent then some (Alert.concentration p.2.country_name p.2.percent)
      else none) ++
    results.flatMap (fun r =>
      (if 100000 < r.total_usd then [Alert.highExposure r.name r.total_usd] else []) ++
      (if 0.15 < (FX_VOLATILITY.lookup r.currency).getD 0 then
         [Alert.fxRisk r.name r.currency]
       else []))
  { employees := results
    by_country := by_country
    total_liability_usd := total_liability
    total_employees := results.length
    high_risk_count := (results.map (fun r => if 70 < r.risk_score then 1 else 0)).sum
    avg_risk_score :=
      if results ≠ [] then (results.map (fun r => r.risk_score)).sum / results.length
      else 0
    alerts := alerts }

/-- Notice days as a function of tenure days only (months and fractional
years are both derived from the same day count, as in `calculate_tenure`). -/
def noticeDaysAt (rule : CountryRule) (jobLevel : String) (d : ℤ) : ℤ :=
  noticeDays rule.notice_period jobLevel (monthsOf d) (yearsOf d)

/-- A tier whose recognized threshold key (if any) is strictly above the
given tenure.  Mirrors the key dispatch of the tier loop: `min_months` is
consulted first, then `min_years`; a tier with neither key has no threshold. -/
def tierBelowB (tenureMonths : ℤ) (tenureYears : ℚ) (t : Tier) : Bool :=
  match t.min_months with
  | some mm => decide (tenureMonths < mm)
  | none =>
    match t.min_years with
    | some my => decide (tenureYears < (my : ℚ))
    | none => true

/-- The tenure derived from `d` days is strictly below every tier threshold
of the configuration. -/
abbrev BelowAllTiers (cfg : NoticeConfig) (d : ℤ) : Prop :=
  ∀ t ∈ cfg.tiers.getD [], tierBelowB (monthsOf d) (yearsOf d) t = true

/-- Last-satisfied-threshold lookup over (threshold, value) pairs, starting
from `0`: the evaluation shape of the tier loop once a country's tier list is
fixed. -/
def stepFun {α : Type} [LinearOrder α] (l : List (α × ℤ)) (k : α) : ℤ :=
  l.foldl (fun acc p => if p.1 ≤ k then p.2 else acc) 0

/-- Nonnegativity of an optional rational rule parameter (trivially true when
the key is absent). -/
abbrev optNN (o : Option ℚ) : Prop := 0 ≤ o.getD 1

/-- Nonnegativity of an optional integer rule parameter. -/
abbrev optNNI (o : Option ℤ) : Prop := 0 ≤ o.getD 1

/-- All numeric parameters of a tier are nonnegative. -/
abbrev TierNN (t : Tier) : Prop :=
  optNNI t.days ∧ optNNI t.weeks ∧ optNNI t.weeks_per_year ∧
    optNNI t.max_weeks ∧ optNNI t.months

/-- All numeric parameters of a notice configuration are nonnegative. -/
abbrev NoticeNN (cfg : NoticeConfig) : Prop :=
  optNNI cfg.base_days ∧ optNNI cfg.additional_days_per_year ∧
    optNNI cfg.max_days ∧ optNNI cfg.typical_days ∧ optNNI cfg.senior_days ∧
    optNNI cfg.standard_days ∧ optNNI cfg.days ∧
    ∀ t ∈ cfg.tiers.getD [], TierNN t

/-- All numeric parameters of a severance configuration are nonnegative. -/
abbrev SevNN (cfg : SevConfig) : Prop :=
  optNN cfg.fgts_penalty_percent ∧ optNN cfg.months_per_year ∧
    optNN cfg.weeks_per_year ∧ optNN cfg.weekly_cap ∧ optNN cfg.max_years ∧
    optNN cfg.max_eur ∧ optNN cfg.constitutional_months ∧
    optNN cfg.seniority_days_per_year ∧ ∀ x ∈ cfg.scale.getD [], (0 : ℤ) ≤ x

/-- All numeric parameters of a bonus configuration are nonnegative. -/
abbrev BonusNN (cfg : BonusConfig) : Prop :=
  optNN cfg.vacation_bonus ∧ optNN cfg.aguinaldo_days ∧
    optNN cfg.holiday_allowance_percent ∧ optNN cfg.statutory_bonus_percent ∧
    optNN cfg.salary_cap

/-- All numeric parameters of a country rule are nonnegative. -/
abbrev RuleNN (r : CountryRule) : Prop :=
  NoticeNN r.notice_period ∧ SevNN r.severance ∧ BonusNN r.statutory_bonuses

/-- A reference date used for concrete evaluations: an arbitrary ordinal with
100 days elapsed in the current year. -/
def ctxA : RefDate := { day := 739000, daysSinceJan1 := 100 }

/-- A reference date falling on January 1 (no days elapsed this year). -/
def ctxJan1 : RefDate := { day := 1000, daysSinceJan1 := 0 }

/-- A Brazilian employee with positive salary and positive tenure. -/
def empBR1 : Employee :=
  { employee_id := "E2", name := "B", country_code := "BR", start_day := 737000,
    monthly_salary_local := 18500, currency := "BRL", job_level := "senior" }

/-- A Singaporean employee with 100 days of tenure and positive salary. -/
def empSG1 : Employee :=
  { employee_id := "E1", name := "A", country_code := "SG", start_day := 900,
    monthly_salary_local := 5000, currency := "SGD", job_level := "mid" }

/-- An employee whose country code has no entry in `COUNTRY_RULES`. -/
def empZZ1 : Employee :=
  { employee_id := "E3", name := "C", country_code := "ZZ", start_day := 737000,
    monthly_salary_local := 1000, currency := "XYZ", job_level := "mid" }


/-! ### General helper lemmas -/

lemma truncToward0_of_nonneg {q : ℚ} (h : 0 ≤ q) : truncToward0 q = ⌊q⌋ :=
  if_pos h

lemma truncToward0_nonneg {q : ℚ} (h : 0 ≤ q) : 0 ≤ truncToward0 q := by
  rw [truncToward0_of_nonneg h]
  exact Int.floor_nonneg.mpr h

lemma truncToward0_mono {q1 q2 : ℚ} (h0 : 0 ≤ q1) (h : q1 ≤ q2) :
    truncToward0 q1 ≤ truncToward0 q2 := by
  rw [truncToward0_of_nonneg h0, truncToward0_of_nonneg (h0.trans h)]
  exact Int.floor_le_floor h

lemma yearsOf_nonneg {d : ℤ} (h : 0 ≤ d) : 0 ≤ yearsOf d := by
  unfold yearsOf
  positivity

lemma yearsOf_mono {d1 d2 : ℤ} (h : d1 ≤ d2) : yearsOf d1 ≤ yearsOf d2 := by
  have hc : (d1 : ℚ) ≤ (d2 : ℚ) := by exact_mod_cast h
  unfold yearsOf
  gcongr

lemma monthsOf_nonneg {d : ℤ} (h : 0 ≤ d) : 0 ≤ monthsOf d := by
  unfold monthsOf
  rw [Int.fdiv_eq_ediv _ (by norm_num)]
  exact Int.ediv_nonneg h (by norm_num)

lemma monthsOf_mono {d1 d2 : ℤ} (h : d1 ≤ d2) : monthsOf d1 ≤ monthsOf d2 := by
  unfold monthsOf
  rw [Int.fdiv_eq_ediv _ (by norm_num), Int.fdiv_eq_ediv _ (by norm_num)]
  exact Int.ediv_le_ediv (by norm_num) h

lemma optNN_some {o : Option ℚ} {a : ℚ} (h : optNN o) (ha : o = some a) : 0 ≤ a := by
  subst ha
  simpa [optNN] using h

lemma optNN_getD {o : Option ℚ} {c : ℚ} (h : optNN o) (hc : 0 ≤ c) : 0 ≤ o.getD c := by
  cases o with
  | none => simpa using hc
  | some a => simpa using optNN_some h rfl

lemma optNNI_some {o : Option ℤ} {a : ℤ} (h : optNNI o) (ha : o = some a) : 0 ≤ a := by
  subst ha
  simpa [optNNI] using h

lemma optNNI_getD {o : Option ℤ} {c : ℤ} (h : optNNI o) (hc : 0 ≤ c) : 0 ≤ o.getD c := by
  cases o with
  | none => simpa using hc
  | some a => simpa using optNNI_some h rfl

lemma lookup_pred {β : Type} {P : β → Prop} :
    ∀ {l : List (String × β)}, (∀ p ∈ l, P p.2) →
      ∀ {c : String} {r : β}, l.lookup c = some r → P r := by
  intro l
  induction l with
  | nil => intro _ c r hr; simp [List.lookup] at hr
  | cons hd tl ih =>
    intro hall c r hr
    rw [List.lookup] at hr
    by_cases hc : c == hd.1
    · simp only [hc] at hr
      cases hr
      exact hall hd (List.mem_cons_self _ _)
    · simp only [hc] at hr
      exact ih (fun p hp => hall p (List.mem_cons_of_mem _ hp)) hr

lemma lookup_getD_pred {β : Type} {P : β → Prop} {l : List (String × β)} {d : β}
    (hl : ∀ p ∈ l, P p.2) (hd : P d) (c : String) : P ((l.lookup c).getD d) := by
  cases hc : l.lookup c with
  | none => simpa using hd
  | some r => simpa using lookup_pred hl hc

lemma getD_nonneg {l : List ℤ} {n : ℕ} (hl : ∀ x ∈ l, (0 : ℤ) ≤ x) :
    0 ≤ l.getD n 0 := by
  induction l generalizing n with
  | nil => simp [List.getD]
  | cons hd tl ih =>
    cases n with
    | zero => simpa [List.getD] using hl hd (List.mem_cons_self _ _)
    | succ m =>
      simpa [List.getD] using ih (fun x hx => hl x (List.mem_cons_of_mem _ hx))

/-! ### C10 -/

/-- C10: aggregating an empty employee list succeeds and returns zero totals,
zero headcount, zero high-risk count, zero average risk score, an empty
country rollup and an empty alerts list. -/
theorem c10_empty_portfolio (ctx : RefDate) :
    calculate_portfolio ctx [] =
      { employees := [], by_country := [], total_liability_usd := 0,
        total_employees := 0, high_risk_count := 0, avg_risk_score := 0,
        alerts := [] } := rfl

/-! ### C9 -/

lemma sum_ite_risk (l : List LiabilityResult) :
    (l.map (fun r => if 70 < r.risk_score then 1 else 0)).sum =
      (l.filter (fun r => decide (70 < r.risk_score))).length := by
  induction l with
  | nil => rfl
  | cons hd tl ih =>
    by_cases h : 70 < hd.risk_score
    · simp only [List.map_cons, List.sum_cons, List.filter_cons, h, if_pos,
        decide_eq_true_eq, List.length_cons, ih]
      omega
    · simp [List.filter_cons, h, ih]

/-- C9: the `high_risk_count` field equals the number of employee results
whose risk score is strictly greater than 70 (a risk score of exactly 70 is
not counted). -/
theorem c9_high_risk_count (ctx : RefDate) (emps : List Employee) :
    (calculate_portfolio ctx emps).high_risk_count =
      ((calculate_portfolio ctx emps).employees.filter
        (fun r => decide (70 < r.risk_score))).length := by
  simp only [calculate_portfolio]
  exact sum_ite_risk _

/-! ### C2 -/

/-- C2 counterexample: with the reference date one day before the hire date,
`calculate_tenure` does not fail: it returns a tenure value. -/
theorem c2_counterexample :
    (100 : ℤ) < 101 ∧
      calculate_tenure 100 101 = Except.ok (-1, monthsOf (-1), yearsOf (-1)) :=
  ⟨by norm_num, rfl⟩

/-- C2 (amended): for every hire date strictly after the reference date,
`calculate_tenure` returns normally — with a strictly negative elapsed-days
component — rather than failing with `InvalidDateError`. -/
theorem c2_tenure_returns_negative (todayDay startDay : ℤ)
    (h : todayDay < startDay) :
    calculate_tenure todayDay startDay =
        Except.ok (todayDay - startDay, monthsOf (todayDay - startDay),
          yearsOf (todayDay - startDay)) ∧
      todayDay - startDay < 0 :=
  ⟨rfl, by omega⟩

/-- Witness for C2 at the concrete date pair (100, 101). -/
theorem c2_witness :
    calculate_tenure 100 101 =
        Except.ok ((100 : ℤ) - 101, monthsOf (100 - 101), yearsOf (100 - 101)) ∧
      (100 : ℤ) - 101 < 0 :=
  c2_tenure_returns_negative 100 101 (by norm_num)

/-! ### C1 -/

lemma noticeDays_default (jobLevel : String) (m : ℤ) (y : ℚ) :
    noticeDays {} jobLevel m y = 0 := rfl

lemma calcSeverance_default (s : ℚ) (m : ℤ) (y : ℚ) :
    calcSeverance {} s m y = 0 := by
  unfold calcSeverance sevFormulaOf
  simp

lemma calcBonuses_default (s : ℚ) (d : ℕ) : calcBonuses {} s d = 0 := by
  unfold calcBonuses
  simp

/-- C1 counterexample: an employee whose country code has no entry in
`COUNTRY_RULES` is evaluated without failure — the engine returns a result. -/
theorem c1_counterexample :
    COUNTRY_RULES.lookup "ZZ" = none ∧
      (calculate_employee_liability ctxA empZZ1).isOk = true :=
  ⟨rfl, rfl⟩

/-- C1 (amended): for every employee whose country code has no entry in
`COUNTRY_RULES`, the engine does not fail with `UnknownCountryError`; it
returns a result computed from the empty rule set, with zero notice days,
zero notice cost, zero severance and zero bonuses. -/
theorem c1_unknown_country_returns_result (ctx : RefDate) (emp : Employee)
    (h : COUNTRY_RULES.lookup emp.country_code = none) :
    calculate_employee_liability ctx emp = Except.ok (employeeLiability ctx emp) ∧
      (employeeLiability ctx emp).notice_days = 0 ∧
      (employeeLiability ctx emp).notice_cost = 0 ∧
      (employeeLiability ctx emp).severance = 0 ∧
      (employeeLiability ctx emp).bonuses = 0 := by
  have hc : (COUNTRY_RULES.lookup emp.country_code).getD {} = ({} : CountryRule) := by
    rw [h]
    rfl
  refine ⟨rfl, ?_, ?_, ?_, ?_⟩ <;>
    simp [employeeLiability, hc, calculate_notice_period, calculate_severance,
      calculate_statutory_bonuses, noticeDays_default, calcSeverance_default,
      calcBonuses_default]

/-- Witness for C1 at a concrete unknown-country employee. -/
theorem c1_witness :
    COUNTRY_RULES.lookup empZZ1.country_code = none ∧
      (calculate_employee_liability ctxA empZZ1 =
          Except.ok (employeeLiability ctxA empZZ1) ∧
        (employeeLiability ctxA empZZ1).notice_days = 0 ∧
        (employeeLiability ctxA empZZ1).notice_cost = 0 ∧
        (employeeLiability ctxA empZZ1).severance = 0 ∧
        (employeeLiability ctxA empZZ1).bonuses = 0) :=
  ⟨rfl, c1_unknown_country_returns_result ctxA empZZ1 rfl⟩

/-! ### C3 -/

/-- C3 counterexample: under Brazil's flat-with-accrual policy, at 694 days of
tenure (tenure_years ≈ 1.90), the code yields 35 notice days, while the
claimed formula `min(base + floor(years) × per_year, max)` yields 33: the
code truncates the product `years × per_year`, not the year count. -/
theorem c3_counterexample :
    noticeDays brRule.notice_period "mid" (monthsOf 694) (yearsOf 694) = 35 ∧
      min (30 + ⌊yearsOf 694⌋ * 3) 90 = 33 := by
  constructor
  · with_unfolding_all decide
  · with_unfolding_all decide

/-- C3 (amended): under a flat-with-accrual notice policy with nonnegative
tenure and per-year increment, the computed notice days equal
`min(base + floor(tenure_years × per_year_increment), max_days)` — the floor
is applied to the product, not to the whole-years count before multiplying. -/
theorem c3_flat_notice_floor_of_product (cfg : NoticeConfig) (jobLevel : String)
    (tenureMonths : ℤ) (tenureYears : ℚ) (base : ℤ)
    (hb : cfg.base_days = some base) (h0 : 0 ≤ tenureYears)
    (hpy : 0 ≤ cfg.additional_days_per_year.getD 0) :
    noticeDays cfg jobLevel tenureMonths tenureYears =
      min (base + ⌊tenureYears * (cfg.additional_days_per_year.getD 0 : ℚ)⌋)
        (cfg.max_days.getD 90) := by
  have hprod : 0 ≤ tenureYears * (cfg.additional_days_per_year.getD 0 : ℚ) :=
    mul_nonneg h0 (by exact_mod_cast hpy)
  unfold noticeDays
  rw [hb]
  rw [truncToward0_of_nonneg hprod]

/-- Witness for C3 at Brazil's configuration and 694 days of tenure. -/
theorem c3_witness :
    brRule.notice_period.base_days = some 30 ∧ 0 ≤ yearsOf 694 ∧
      0 ≤ brRule.notice_period.additional_days_per_year.getD 0 ∧
      noticeDays brRule.notice_period "mid" (monthsOf 694) (yearsOf 694) =
        min (30 + ⌊yearsOf 694 *
              (brRule.notice_period.additional_days_per_year.getD 0 : ℚ)⌋)
          (brRule.notice_period.max_days.getD 90) :=
  ⟨rfl, by with_unfolding_all decide, by with_unfolding_all decide,
    c3_flat_notice_floor_of_product _ _ _ _ 30 rfl (by with_unfolding_all decide)
      (by with_unfolding_all decide)⟩

/-! ### C5 -/

/-- C5: for every severance rule set declaring a minimum-eligibility
threshold (`min_tenure_months`, `min_tenure_years`, or the gratuity 5-year
floor), severance is exactly 0 whenever the tenure in the declared unit is
strictly below that minimum. -/
theorem c5_severance_zero_below_min (cfg : SevConfig) (salary : ℚ)
    (tenureMonths : ℤ) (tenureYears : ℚ)
    (h : (∃ m, cfg.min_tenure_months = some m ∧ tenureMonths < m) ∨
         (∃ y, cfg.min_tenure_years = some y ∧ tenureYears < (y : ℚ)) ∨
         (sevFormulaOf cfg = "gratuity" ∧ tenureYears < 5)) :
    calcSeverance cfg salary tenureMonths tenureYears = 0 := by
  rcases h with ⟨m, hm, hlt⟩ | ⟨y, hy, hlt⟩ | ⟨hf, hlt⟩
  · unfold calcSeverance
    rw [if_pos]
    exact Or.inl (by rw [hm]; exact hlt)
  · unfold calcSeverance
    rw [if_pos]
    exact Or.inr (by rw [hy]; exact hlt)
  · by_cases hpre : tenureMonths < cfg.min_tenure_months.getD 0 ∨
        tenureYears < (cfg.min_tenure_years.getD 0 : ℚ)
    · unfold calcSeverance
      rw [if_pos hpre]
    · unfold calcSeverance
      rw [if_neg hpre]
      simp only [hf]
      rw [if_neg (by decide : ¬("gratuity" = "fgts_based"))]
      rw [if_neg (by decide : ¬("gratuity" = "tiered"))]
      rw [if_neg (by decide : ¬("gratuity" = "market_practice"))]
      rw [if_pos trivial]
      rw [if_neg (by linarith : ¬(5 : ℚ) ≤ tenureYears)]

/-- Witness for C5: a French employee five months into the job (below the
8-month minimum) receives zero severance. -/
theorem c5_witness :
    frRule.severance.min_tenure_months = some 8 ∧ (5 : ℤ) < 8 ∧
      calcSeverance frRule.severance 6200 5 (1 / 2) = 0 :=
  ⟨rfl, by norm_num,
    c5_severance_zero_below_min _ _ _ _ (Or.inl ⟨8, rfl, by norm_num⟩)⟩

/-! ### C7 -/

/-- C7 counterexample: a single-employee portfolio whose total liability is
zero — a Singaporean employee below every notice tier key, below the
severance minimum, with no bonuses, evaluated on January 1 — is reported at
0% concentration with no alerts at all. -/
theorem c7_counterexample :
    (calculate_portfolio ctxJan1 [empSG1]).by_country.map (fun p => p.2.percent) =
        [0] ∧
      (calculate_portfolio ctxJan1 [empSG1]).alerts = [] := by
  constructor
  · with_unfolding_all decide
  · with_unfolding_all decide

/-- C7 (amended): a single-employee portfolio whose total liability is
strictly positive reports that employee's country at 100% concentration and
emits the concentration alert. -/
theorem c7_single_employee_concentration (ctx : RefDate) (emp : Employee)
    (h : 0 < (employeeLiability ctx emp).total_usd) :
    (calculate_portfolio ctx [emp]).by_country.map (fun p => p.2.percent) =
        [100] ∧
      Alert.concentration (employeeLiability ctx emp).country_name 100 ∈
        (calculate_portfolio ctx [emp]).alerts := by
  have hne : (employeeLiability ctx emp).total_usd ≠ 0 := ne_of_gt h
  have hperc :
      (if 0 < (employeeLiability ctx emp).total_usd + 0 then
          (employeeLiability ctx emp).total_usd /
            ((employeeLiability ctx emp).total_usd + 0) * 100
        else 0) = 100 := by
    rw [add_zero, if_pos h, div_self hne, one_mul]
  constructor
  · simp only [calculate_portfolio, List.map_cons, List.map_nil, List.sum_cons,
      List.sum_nil, List.foldl, addResult, hperc]
  · simp only [calculate_portfolio, List.map_cons, List.map_nil, List.sum_cons,
      List.sum_nil, List.foldl, addResult, hperc, List.filterMap_cons,
      List.filterMap_nil]
    rw [if_pos (by norm_num : (30 : ℚ) < 100)]
    exact List.mem_append_left _ (List.mem_cons_self _ _)

/-- Witness for C7: the Brazilian employee `empBR1` has positive total
liability, is reported at 100% concentration, and the concentration alert is
emitted. -/
theorem c7_witness :
    0 < (employeeLiability ctxA empBR1).total_usd ∧
      ((calculate_portfolio ctxA [empBR1]).by_country.map (fun p => p.2.percent) =
          [100] ∧
        Alert.concentration (employeeLiability ctxA empBR1).country_name 100 ∈
          (calculate_portfolio ctxA [empBR1]).alerts) :=
  ⟨by with_unfolding_all decide,
    c7_single_employee_concentration ctxA empBR1 (by with_unfolding_all decide)⟩

/-! ### C6 -/

lemma addResult_total (acc : List (String × CountryRollup)) (r : LiabilityResult) :
    ((addResult acc r).map (fun p => p.2.total_usd)).sum =
      (acc.map (fun p => p.2.total_usd)).sum + r.total_usd := by
  induction acc with
  | nil => simp [addResult]
  | cons hd tl ih =>
    obtain ⟨c, d⟩ := hd
    by_cases hc : c = r.country_code
    · simp only [addResult, if_pos hc, List.map_cons, List.sum_cons]
      ring
    · simp only [addResult, if_neg hc, List.map_cons, List.sum_cons, ih]
      ring

lemma foldl_addResult_total (results : List LiabilityResult) :
    ∀ acc : List (String × CountryRollup),
      (((results.foldl addResult acc).map (fun p => p.2.total_usd)).sum) =
        (acc.map (fun p => p.2.total_usd)).sum +
          (results.map (fun r => r.total_usd)).sum := by
  induction results with
  | nil => intro acc; simp
  | cons r rs ih =>
    intro acc
    simp only [List.foldl_cons, List.map_cons, List.sum_cons, ih, addResult_total]
    ring

/-- C6: across all countries of a portfolio, the `percent` values sum to
exactly 100 whenever the grand total liability is strictly positive, and
every `percent` is 0 whenever the grand total liability is 0 (the guard that
avoids division by zero). -/
theorem c6_percent_partition (ctx : RefDate) (emps : List Employee) :
    (0 < (calculate_portfolio ctx emps).total_liability_usd →
        ((calculate_portfolio ctx emps).by_country.map
          (fun p => p.2.percent)).sum = 100) ∧
      ((calculate_portfolio ctx emps).total_liability_usd = 0 →
        ∀ p ∈ (calculate_portfolio ctx emps).by_country, p.2.percent = 0) := by
  simp only [calculate_portfolio]
  constructor
  · intro hpos
    have hne : ((emps.map (employeeLiability ctx)).map
        (fun r => r.total_usd)).sum ≠ 0 := ne_of_gt hpos
    rw [List.map_map]
    rw [List.map_congr_left (g := fun p : String × CountryRollup =>
      p.2.total_usd * (100 / ((emps.map (employeeLiability ctx)).map
        (fun r => r.total_usd)).sum))
      (fun p _ => by simp only [Function.comp_apply, if_pos hpos]; ring)]
    rw [List.sum_map_mul_right]
    have hsum := foldl_addResult_total (emps.map (employeeLiability ctx)) []
    simp only [List.map_nil, List.sum_nil, zero_add] at hsum
    rw [hsum]
    rw [mul_comm, div_mul_cancel₀ _ hne]
  · intro hzero
    rw [List.map_map] at hzero
    intro p hp
    rw [List.mem_map] at hp
    obtain ⟨q, hq, rfl⟩ := hp
    simp [List.map_map, hzero]

/-- Witness for C6: the single-employee Brazilian portfolio has positive
total liability and its country percentages sum to 100. -/
theorem c6_witness :
    0 < (calculate_portfolio ctxA [empBR1]).total_liability_usd ∧
      ((calculate_portfolio ctxA [empBR1]).by_country.map
        (fun p => p.2.percent)).sum = 100 :=
  ⟨by with_unfolding_all decide,
    (c6_percent_partition ctxA [empBR1]).1 (by with_unfolding_all decide)⟩

/-! ### C8 -/

lemma tierStep_nonneg {m : ℤ} {y : ℚ} {acc : ℤ} {t : Tier} (ht : TierNN t)
    (hy : 0 ≤ y) (hacc : 0 ≤ acc) : 0 ≤ tierStep m y acc t := by
  obtain ⟨hdy, hwk, hwpy, hmw, hmo⟩ := ht
  rcases t with ⟨mm, mx, my, dys, wks, wpy, mw, mo, lbl⟩
  cases mm with
  | some v =>
    dsimp only [tierStep]
    split_ifs
    · exact optNNI_getD hdy le_rfl
    · exact hacc
  | none =>
    cases my with
    | none => exact hacc
    | some v =>
      dsimp only [tierStep]
      split_ifs
      · cases wks with
        | some w =>
          dsimp only
          exact mul_nonneg (optNNI_some hwk rfl) (by norm_num)
        | none =>
          cases wpy with
          | some w =>
            dsimp only
            refine mul_nonneg (le_min ?_ ?_) (by norm_num)
            · exact mul_nonneg (truncToward0_nonneg hy) (optNNI_some hwpy rfl)
            · exact optNNI_getD hmw (by norm_num)
          | none =>
            cases mo with
            | some w =>
              dsimp only
              exact mul_nonneg (optNNI_some hmo rfl) (by norm_num)
            | none => exact hacc
      · exact hacc

lemma foldl_tierStep_nonneg {m : ℤ} {y : ℚ} (hy : 0 ≤ y) :
    ∀ (ts : List Tier), (∀ t ∈ ts, TierNN t) → ∀ acc : ℤ, 0 ≤ acc →
      0 ≤ ts.foldl (tierStep m y) acc := by
  intro ts
  induction ts with
  | nil => intro _ acc hacc; simpa using hacc
  | cons hd tl ih =>
    intro hall acc hacc
    rw [List.foldl_cons]
    exact ih (fun t htl => hall t (List.mem_cons_of_mem _ htl)) _
      (tierStep_nonneg (hall hd (List.mem_cons_self _ _)) hy hacc)

lemma noticeDays_nonneg {cfg : NoticeConfig} {lvl : String} {m : ℤ} {y : ℚ}
    (h : NoticeNN cfg) (hy : 0 ≤ y) : 0 ≤ noticeDays cfg lvl m y := by
  obtain ⟨h1, h2, h3, h4, h5, h6, h7, h8⟩ := h
  rcases cfg with ⟨bd, apy, mxd, trs, td, snd, stdd, dy, o45⟩
  cases bd with
  | some b =>
    dsimp only [noticeDays]
    refine le_min (add_nonneg (optNNI_some h1 rfl) (truncToward0_nonneg ?_))
      (optNNI_getD h3 (by norm_num))
    exact mul_nonneg hy (by exact_mod_cast optNNI_getD h2 le_rfl)
  | none =>
    cases trs with
    | some ts =>
      dsimp only [noticeDays]
      exact foldl_tierStep_nonneg hy ts (by simpa using h8) 0 le_rfl
    | none =>
      cases td with
      | some v =>
        dsimp only [noticeDays]
        split_ifs
        · exact optNNI_getD h5 (optNNI_some h4 rfl)
        · exact optNNI_some h4 rfl
      | none =>
        cases stdd with
        | some v =>
          dsimp only [noticeDays]
          exact optNNI_some h6 rfl
        | none =>
          dsimp only [noticeDays]
          exact optNNI_getD h7 le_rfl

lemma notice_cost_nonneg (ctx : RefDate) (emp : Employee) (country : CountryRule)
    (hN : NoticeNN country.notice_period) (hhire : emp.start_day ≤ ctx.day)
    (hsal : 0 ≤ emp.monthly_salary_local) :
    0 ≤ (calculate_notice_period ctx emp country).2 := by
  unfold calculate_notice_period tenure
  dsimp only
  have hy : 0 ≤ yearsOf (ctx.day - emp.start_day) := yearsOf_nonneg (by omega)
  refine mul_nonneg ?_ (div_nonneg hsal (by norm_num))
  exact_mod_cast noticeDays_nonneg hN hy

set_option maxHeartbeats 1000000 in
lemma calcSeverance_nonneg {cfg : SevConfig} {salary : ℚ} {m : ℤ} {y : ℚ}
    (h : SevNN cfg) (hsal : 0 ≤ salary) (hy : 0 ≤ y) :
    0 ≤ calcSeverance cfg salary m y := by
  obtain ⟨ha, hb, hc, hd, he, hf, hg, hh, hsc⟩ := h
  unfold calcSeverance
  cases hcm : cfg.constitutional_months with
  | some cm =>
    dsimp only
    split_ifs with h1 h2 h3 h4 h5 h6 h7 h8
    · exact le_rfl
    · exact mul_nonneg
        (mul_nonneg (mul_nonneg (mul_nonneg hsal (by norm_num)) (by norm_num)) hy)
        (div_nonneg (optNN_getD ha (by norm_num)) (by norm_num))
    · exact mul_nonneg (mul_nonneg (by norm_num) hsal) hy
    · exact add_nonneg (mul_nonneg (mul_nonneg (by norm_num) hsal) (by norm_num))
        (mul_nonneg (mul_nonneg (by norm_num) hsal) (by linarith))
    · exact mul_nonneg
        (mul_nonneg (div_nonneg hsal (by norm_num)) (optNN_getD hc le_rfl)) hy
    · exact mul_nonneg (mul_nonneg (optNN_getD hb (by norm_num)) hsal) hy
    · exact mul_nonneg (mul_nonneg (by norm_num) (div_nonneg hsal (by norm_num))) hy
    · exact le_rfl
    · exact mul_nonneg hsal (le_trans (by norm_num) (le_max_left 1 y))
    · exact add_nonneg (mul_nonneg (optNN_some hg hcm) hsal)
        (mul_nonneg (mul_nonneg (div_nonneg hsal (by norm_num))
          (optNN_getD hh (by norm_num))) hy)
  | none =>
    dsimp only
    split_ifs with h1 h2 h3 h4 h5 h6 h7 h8 h9 h10 h11 h12
    · exact le_rfl
    · exact mul_nonneg
        (mul_nonneg (mul_nonneg (mul_nonneg hsal (by norm_num)) (by norm_num)) hy)
        (div_nonneg (optNN_getD ha (by norm_num)) (by norm_num))
    · exact mul_nonneg (mul_nonneg (by norm_num) hsal) hy
    · exact add_nonneg (mul_nonneg (mul_nonneg (by norm_num) hsal) (by norm_num))
        (mul_nonneg (mul_nonneg (by norm_num) hsal) (by linarith))
    · exact mul_nonneg
        (mul_nonneg (div_nonneg hsal (by norm_num)) (optNN_getD hc le_rfl)) hy
    · exact mul_nonneg (mul_nonneg (optNN_getD hb (by norm_num)) hsal) hy
    · exact mul_nonneg (mul_nonneg (by norm_num) (div_nonneg hsal (by norm_num))) hy
    · exact le_rfl
    · exact mul_nonneg hsal (le_trans (by norm_num) (le_max_left 1 y))
    · exact mul_nonneg (le_min (div_nonneg hsal (by norm_num))
        (optNN_getD hd (by norm_num))) (le_min hy (optNN_getD he (by norm_num)))
    · exact le_min (mul_nonneg (mul_nonneg (optNN_getD hb (by norm_num)) hsal) hy)
        (optNN_getD hf (by norm_num))
    · exact mul_nonneg (div_nonneg hsal (by norm_num))
        (by exact_mod_cast getD_nonneg hsc)
    · exact le_rfl
    · exact le_rfl

lemma severance_fn_nonneg (ctx : RefDate) (emp : Employee) (country : CountryRule)
    (hS : SevNN country.severance) (hhire : emp.start_day ≤ ctx.day)
    (hsal : 0 ≤ emp.monthly_salary_local) :
    0 ≤ calculate_severance ctx emp country := by
  unfold calculate_severance tenure
  exact calcSeverance_nonneg hS hsal (yearsOf_nonneg (by omega))

lemma calcBonuses_nonneg {cfg : BonusConfig} {salary : ℚ} {d : ℕ}
    (h : BonusNN cfg) (hsal : 0 ≤ salary) : 0 ≤ calcBonuses cfg salary d := by
  obtain ⟨h1, h2, h3, h4, h5⟩ := h
  have hyp : (0 : ℚ) ≤ (d : ℚ) / 365 := by positivity
  unfold calcBonuses
  refine add_nonneg (add_nonneg (add_nonneg (add_nonneg ?_ ?_) ?_) ?_) ?_
  · split_ifs
    · exact mul_nonneg hsal hyp
    · exact le_rfl
  · cases hag : cfg.aguinaldo_days with
    | some a =>
      exact mul_nonneg (mul_nonneg (div_nonneg hsal (by norm_num))
        (optNN_some h2 hag)) hyp
    | none => exact le_rfl
  · cases hha : cfg.holiday_allowance_percent with
    | some a =>
      exact mul_nonneg (mul_nonneg (mul_nonneg hsal (by norm_num))
        (div_nonneg (optNN_some h3 hha) (by norm_num))) hyp
    | none => exact le_rfl
  · cases hsb : cfg.statutory_bonus_percent with
    | some a =>
      exact mul_nonneg (mul_nonneg (mul_nonneg
        (le_min hsal (optNN_getD h5 hsal)) (by norm_num))
        (div_nonneg (optNN_some h4 hsb) (by norm_num))) hyp
    | none => exact le_rfl
  · cases hvb : cfg.vacation_bonus with
    | some a =>
      exact mul_nonneg (mul_nonneg hsal
        (div_nonneg (optNN_some h1 hvb) (by norm_num))) hyp
    | none => exact le_rfl

lemma vacation_fn_nonneg (ctx : RefDate) (emp : Employee) (code : String)
    (hsal : 0 ≤ emp.monthly_salary_local) :
    0 ≤ calculate_vacation_accrual ctx emp code := by
  unfold calculate_vacation_accrual
  have hacc : (0 : ℚ) ≤ (accrual_rates.lookup code).getD 20 :=
    lookup_getD_pred (P := fun x => 0 ≤ x) (by with_unfolding_all decide)
      (by norm_num) code
  refine mul_nonneg (mul_nonneg (div_nonneg hacc (by norm_num)) (by positivity))
    (div_nonneg hsal (by norm_num))

lemma fxRate_pos (c : String) : 0 < (FX_RATES.lookup c).getD 1.0 :=
  lookup_getD_pred (P := fun x => 0 < x) (by with_unfolding_all decide)
    (by norm_num) c

lemma fxVol_nonneg (c : String) : 0 ≤ (FX_VOLATILITY.lookup c).getD 0.10 :=
  lookup_getD_pred (P := fun x => 0 ≤ x) (by with_unfolding_all decide)
    (by norm_num) c

lemma legalScore_nonneg (lbl : String) : 0 ≤ (legal_scores.lookup lbl).getD 0.5 :=
  lookup_getD_pred (P := fun x => 0 ≤ x) (by with_unfolding_all decide)
    (by norm_num) lbl

lemma convert_to_usd_nonneg {a : ℚ} (c : String) (ha : 0 ≤ a) :
    0 ≤ convert_to_usd a c := by
  unfold convert_to_usd
  split_ifs
  · exact div_nonneg ha (fxRate_pos c).le
  · exact ha

lemma rules_NN : ∀ p ∈ COUNTRY_RULES, RuleNN p.2 := by
  with_unfolding_all decide

lemma ruleNN_of_lookup (code : String) :
    RuleNN ((COUNTRY_RULES.lookup code).getD {}) :=
  lookup_getD_pred rules_NN (by with_unfolding_all decide) code

/-- C8: for every employee with nonnegative salary, hire date on or before
the reference date and a country code present in `COUNTRY_RULES`, the
liability result satisfies `notice_cost ≥ 0`, `severance ≥ 0`, `bonuses ≥ 0`,
`vacation ≥ 0`, and `risk_score ∈ [0, 100]`. -/
theorem c8_result_bounds (ctx : RefDate) (emp : Employee)
    (hknown : (COUNTRY_RULES.lookup emp.country_code).isSome = true)
    (hhire : emp.start_day ≤ ctx.day)
    (hsal : 0 ≤ emp.monthly_salary_local) :
    0 ≤ (employeeLiability ctx emp).notice_cost ∧
      0 ≤ (employeeLiability ctx emp).severance ∧
      0 ≤ (employeeLiability ctx emp).bonuses ∧
      0 ≤ (employeeLiability ctx emp).vacation ∧
      0 ≤ (employeeLiability ctx emp).risk_score ∧
      (employeeLiability ctx emp).risk_score ≤ 100 := by
  obtain ⟨hN, hS, hB⟩ := ruleNN_of_lookup emp.country_code
  have hnc := notice_cost_nonneg ctx emp _ hN hhire hsal
  have hsev := severance_fn_nonneg ctx emp _ hS hhire hsal
  have hbon : 0 ≤ calculate_statutory_bonuses ctx emp
      ((COUNTRY_RULES.lookup emp.country_code).getD {}) :=
    calcBonuses_nonneg hB hsal
  have hvac := vacation_fn_nonneg ctx emp emp.country_code hsal
  have htotl : 0 ≤ (calculate_notice_period ctx emp
        ((COUNTRY_RULES.lookup emp.country_code).getD {})).2 +
      calculate_severance ctx emp
        ((COUNTRY_RULES.lookup emp.country_code).getD {}) +
      calculate_statutory_bonuses ctx emp
        ((COUNTRY_RULES.lookup emp.country_code).getD {}) +
      calculate_vacation_accrual ctx emp emp.country_code :=
    add_nonneg (add_nonneg (add_nonneg hnc hsev) hbon) hvac
  have htot := convert_to_usd_nonneg emp.currency htotl
  have hls : (0 : ℚ) ≤ min (convert_to_usd _ emp.currency / 100000) 1.0 * 35 :=
    mul_nonneg (le_min (div_nonneg htot (by norm_num)) (by norm_num)) (by norm_num)
  have hfx : (0 : ℚ) ≤ (FX_VOLATILITY.lookup emp.currency).getD 0.10 / 0.20 * 25 :=
    mul_nonneg (div_nonneg (fxVol_nonneg emp.currency) (by norm_num)) (by norm_num)
  have hlg : (0 : ℚ) ≤ (legal_scores.lookup
      (((COUNTRY_RULES.lookup emp.country_code).getD {}).legal_risk.getD
        "medium")).getD 0.5 * 15 :=
    mul_nonneg (legalScore_nonneg _) (by norm_num)
  refine ⟨?_, ?_, ?_, ?_, ?_, ?_⟩ <;> simp only [employeeLiability]
  · exact hnc
  · exact hsev
  · exact hbon
  · exact hvac
  · exact le_min (by positivity) (by norm_num)
  · exact min_le_right _ _

/-- Witness for C8 at the Brazilian employee `empBR1`. -/
theorem c8_witness :
    (COUNTRY_RULES.lookup empBR1.country_code).isSome = true ∧
      empBR1.start_day ≤ ctxA.day ∧ 0 ≤ empBR1.monthly_salary_local ∧
      (0 ≤ (employeeLiability ctxA empBR1).notice_cost ∧
        0 ≤ (employeeLiability ctxA empBR1).severance ∧
        0 ≤ (employeeLiability ctxA empBR1).bonuses ∧
        0 ≤ (employeeLiability ctxA empBR1).vacation ∧
        0 ≤ (employeeLiability ctxA empBR1).risk_score ∧
        (employeeLiability ctxA empBR1).risk_score ≤ 100) :=
  ⟨rfl, by norm_num [empBR1, ctxA], by norm_num [empBR1],
    c8_result_bounds ctxA empBR1 rfl (by norm_num [empBR1, ctxA])
      (by norm_num [empBR1])⟩

/-! ### C4 -/

lemma tierStep_of_below {m : ℤ} {y : ℚ} {acc : ℤ} {t : Tier}
    (h : tierBelowB m y t = true) : tierStep m y acc t = acc := by
  rcases t with ⟨mm, mx, my, dys, wks, wpy, mw, mo, lbl⟩
  cases mm with
  | some v =>
    simp only [tierBelowB, decide_eq_true_eq] at h
    dsimp only [tierStep]
    rw [if_neg (not_le.mpr h)]
  | none =>
    cases my with
    | none => rfl
    | some v =>
      simp only [tierBelowB, decide_eq_true_eq] at h
      dsimp only [tierStep]
      rw [if_neg (not_le.mpr h)]

lemma foldl_tierStep_below {m : ℤ} {y : ℚ} :
    ∀ (ts : List Tier), (∀ t ∈ ts, tierBelowB m y t = true) →
      ∀ acc : ℤ, ts.foldl (tierStep m y) acc = acc := by
  intro ts
  induction ts with
  | nil => intro _ acc; rfl
  | cons hd tl ih =>
    intro hall acc
    rw [List.foldl_cons, tierStep_of_below (hall hd (List.mem_cons_self _ _))]
    exact ih (fun t htl => hall t (List.mem_cons_of_mem _ htl)) acc

lemma noticeDaysAt_zero_of_below {rule : CountryRule} {lvl : String} {d : ℤ}
    {ts : List Tier} (hb : rule.notice_period.base_days = none)
    (ht : rule.notice_period.tiers = some ts)
    (h : BelowAllTiers rule.notice_period d) : noticeDaysAt rule lvl d = 0 := by
  unfold BelowAllTiers at h
  rw [ht] at h
  simp only [Option.getD_some] at h
  unfold noticeDaysAt noticeDays
  rw [hb, ht]
  exact foldl_tierStep_below ts h 0

lemma foldl_step_le {α : Type} [LinearOrder α] (k : α) (v : ℤ) :
    ∀ (l : List (α × ℤ)) (acc : ℤ), (∀ p ∈ l, p.2 ≤ v) → acc ≤ v →
      l.foldl (fun acc p => if p.1 ≤ k then p.2 else acc) acc ≤ v := by
  intro l
  induction l with
  | nil => intro acc _ hacc; simpa using hacc
  | cons hd tl ih =>
    intro acc hall hacc
    rw [List.foldl_cons]
    refine ih _ (fun p hp => hall p (List.mem_cons_of_mem _ hp)) ?_
    by_cases h : hd.1 ≤ k
    · simpa [h] using hall hd (List.mem_cons_self _ _)
    · simpa [h] using hacc

lemma stepFun_mono {α : Type} [LinearOrder α] {k1 k2 : α} (hk : k1 ≤ k2) :
    ∀ (l : List (α × ℤ)), l.Pairwise (fun p q => p.2 ≤ q.2) →
      (∀ p ∈ l, 0 ≤ p.2) → stepFun l k1 ≤ stepFun l k2 := by
  intro l
  induction l using List.reverseRecOn with
  | nil => intro _ _; exact le_rfl
  | append_singleton l p ih =>
    intro hsorted h0
    rw [List.pairwise_append] at hsorted
    obtain ⟨hl, _, hcross⟩ := hsorted
    have e1 : ∀ k : α, stepFun (l ++ [p]) k =
        if p.1 ≤ k then p.2 else stepFun l k := by
      intro k
      unfold stepFun
      rw [List.foldl_append]
      rfl
    rw [e1, e1]
    split_ifs with h1 h2 h2
    · exact le_rfl
    · exact absurd (h1.trans hk) h2
    · exact foldl_step_le k1 p.2 l 0
        (fun q hq => hcross q hq p (List.mem_cons_self _ _))
        (h0 p (List.mem_append_right _ (List.mem_cons_self _ _)))
    · exact ih hl (fun q hq => h0 q (List.mem_append_left _ hq))

lemma noticeDaysAt_fr (lvl : String) (d : ℤ) :
    noticeDaysAt frRule lvl d =
      stepFun [((0 : ℤ), 0), (6, 30), (24, 60)] (monthsOf d) := rfl

lemma noticeDaysAt_de (lvl : String) (d : ℤ) :
    noticeDaysAt deRule lvl d =
      stepFun [(((0 : ℤ) : ℚ), 28), (((2 : ℤ) : ℚ), 28), (((5 : ℤ) : ℚ), 56),
        (((8 : ℤ) : ℚ), 84), (((10 : ℤ) : ℚ), 112), (((15 : ℤ) : ℚ), 168),
        (((20 : ℤ) : ℚ), 196)] (yearsOf d) := rfl

lemma noticeDaysAt_nl (lvl : String) (d : ℤ) :
    noticeDaysAt nlRule lvl d =
      stepFun [(((0 : ℤ) : ℚ), 30), (((5 : ℤ) : ℚ), 60), (((10 : ℤ) : ℚ), 90),
        (((15 : ℤ) : ℚ), 120)] (yearsOf d) := rfl

lemma noticeDaysAt_au (lvl : String) (d : ℤ) :
    noticeDaysAt auRule lvl d =
      stepFun [(((1 : ℤ) : ℚ), 7), (((3 : ℤ) : ℚ), 14), (((5 : ℤ) : ℚ), 21),
        (((999 : ℤ) : ℚ), 28)] (yearsOf d) := rfl

lemma noticeDaysAt_sg (lvl : String) (d : ℤ) : noticeDaysAt sgRule lvl d = 0 := rfl

lemma noticeDaysAt_gb (lvl : String) (d : ℤ) :
    noticeDaysAt gbRule lvl d =
      if ((2 : ℤ) : ℚ) ≤ yearsOf d then min (truncToward0 (yearsOf d) * 1) 12 * 7
      else if ((0 : ℤ) : ℚ) ≤ yearsOf d then 7 else 0 := rfl

lemma mono_fr (lvl : String) {d1 d2 : ℤ} (h0 : 0 ≤ d1) (h : d1 ≤ d2) :
    noticeDaysAt frRule lvl d1 ≤ noticeDaysAt frRule lvl d2 := by
  rw [noticeDaysAt_fr, noticeDaysAt_fr]
  exact stepFun_mono (monthsOf_mono h) _ (by with_unfolding_all decide)
    (by with_unfolding_all decide)

lemma mono_de (lvl : String) {d1 d2 : ℤ} (h0 : 0 ≤ d1) (h : d1 ≤ d2) :
    noticeDaysAt deRule lvl d1 ≤ noticeDaysAt deRule lvl d2 := by
  rw [noticeDaysAt_de, noticeDaysAt_de]
  exact stepFun_mono (yearsOf_mono h) _ (by with_unfolding_all decide)
    (by with_unfolding_all decide)

lemma mono_nl (lvl : String) {d1 d2 : ℤ} (h0 : 0 ≤ d1) (h : d1 ≤ d2) :
    noticeDaysAt nlRule lvl d1 ≤ noticeDaysAt nlRule lvl d2 := by
  rw [noticeDaysAt_nl, noticeDaysAt_nl]
  exact stepFun_mono (yearsOf_mono h) _ (by with_unfolding_all decide)
    (by with_unfolding_all decide)

lemma mono_au (lvl : String) {d1 d2 : ℤ} (h0 : 0 ≤ d1) (h : d1 ≤ d2) :
    noticeDaysAt auRule lvl d1 ≤ noticeDaysAt auRule lvl d2 := by
  rw [noticeDaysAt_au, noticeDaysAt_au]
  exact stepFun_mono (yearsOf_mono h) _ (by with_unfolding_all decide)
    (by with_unfolding_all decide)

lemma mono_sg (lvl : String) {d1 d2 : ℤ} (h0 : 0 ≤ d1) (h : d1 ≤ d2) :
    noticeDaysAt sgRule lvl d1 ≤ noticeDaysAt sgRule lvl d2 := by
  rw [noticeDaysAt_sg, noticeDaysAt_sg]

lemma mono_gb (lvl : String) {d1 d2 : ℤ} (h0 : 0 ≤ d1) (h : d1 ≤ d2) :
    noticeDaysAt gbRule lvl d1 ≤ noticeDaysAt gbRule lvl d2 := by
  have hy1 : 0 ≤ yearsOf d1 := yearsOf_nonneg h0
  have hy2 : 0 ≤ yearsOf d2 := yearsOf_nonneg (h0.trans h)
  have hym := yearsOf_mono h
  rw [noticeDaysAt_gb, noticeDaysAt_gb]
  by_cases h1 : ((2 : ℤ) : ℚ) ≤ yearsOf d1
  · rw [if_pos h1, if_pos (h1.trans hym)]
    refine mul_le_mul_of_nonneg_right (min_le_min ?_ le_rfl) (by norm_num)
    exact mul_le_mul_of_nonneg_right (truncToward0_mono hy1 hym) (by norm_num)
  · rw [if_neg h1, if_pos (by exact_mod_cast hy1 : ((0 : ℤ) : ℚ) ≤ yearsOf d1)]
    by_cases h2 : ((2 : ℤ) : ℚ) ≤ yearsOf d2
    · rw [if_pos h2]
      have ht : (2 : ℤ) ≤ truncToward0 (yearsOf d2) := by
        rw [truncToward0_of_nonneg hy2]
        exact Int.le_floor.mpr (by exact_mod_cast h2)
      omega
    · rw [if_neg h2, if_pos (by exact_mod_cast hy2 : ((0 : ℤ) : ℚ) ≤ yearsOf d2)]

/-- C4: for every country rule set in `COUNTRY_RULES` whose notice policy is
tiered, the notice-day function is monotone nondecreasing in tenure (for
tenures with hire date on or before the reference date), and tenure strictly
below every tier threshold yields zero notice days. -/
theorem c4_tiered_monotone (p : String × CountryRule) (hmem : p ∈ COUNTRY_RULES)
    (htiers : p.2.notice_period.tiers ≠ none) :
    (∀ (lvl : String) (d1 d2 : ℤ), 0 ≤ d1 → d1 ≤ d2 →
        noticeDaysAt p.2 lvl d1 ≤ noticeDaysAt p.2 lvl d2) ∧
      (∀ (lvl : String) (d : ℤ), 0 ≤ d → BelowAllTiers p.2.notice_period d →
        noticeDaysAt p.2 lvl d = 0) := by
  fin_cases hmem
  · exact absurd rfl htiers
  · exact ⟨fun lvl d1 d2 h0 h12 => mono_fr lvl h0 h12,
      fun lvl d _ hb => noticeDaysAt_zero_of_below rfl rfl hb⟩
  · exact ⟨fun lvl d1 d2 h0 h12 => mono_de lvl h0 h12,
      fun lvl d _ hb => noticeDaysAt_zero_of_below rfl rfl hb⟩
  · exact absurd rfl htiers
  · exact absurd rfl htiers
  · exact absurd rfl htiers
  · exact ⟨fun lvl d1 d2 h0 h12 => mono_gb lvl h0 h12,
      fun lvl d _ hb => noticeDaysAt_zero_of_below rfl rfl hb⟩
  · exact ⟨fun lvl d1 d2 h0 h12 => mono_nl lvl h0 h12,
      fun lvl d _ hb => noticeDaysAt_zero_of_below rfl rfl hb⟩
  · exact ⟨fun lvl d1 d2 h0 h12 => mono_sg lvl h0 h12,
      fun lvl d _ hb => noticeDaysAt_zero_of_below rfl rfl hb⟩
  · exact ⟨fun lvl d1 d2 h0 h12 => mono_au lvl h0 h12,
      fun lvl d _ hb => noticeDaysAt_zero_of_below rfl rfl hb⟩

/-- Witness for C4 at Australia's tiered rule: monotonicity between 0 and 400
days of tenure, and zero notice days at 100 days (below the 1-year first
tier). -/
theorem c4_witness :
    (("AU", auRule) ∈ COUNTRY_RULES ∧ auRule.notice_period.tiers ≠ none ∧
        (0 : ℤ) ≤ 0 ∧ (0 : ℤ) ≤ (400 : ℤ) ∧ (0 : ℤ) ≤ (100 : ℤ) ∧
        BelowAllTiers auRule.notice_period 100) ∧
      noticeDaysAt auRule "senior" 0 ≤ noticeDaysAt auRule "senior" 400 ∧
      noticeDaysAt auRule "senior" 100 = 0 := by
  have hmem : ("AU", auRule) ∈ COUNTRY_RULES := by
    simp [COUNTRY_RULES]
  have htiers : auRule.notice_period.tiers ≠ none := by
    simp [auRule]
  have hbelow : BelowAllTiers auRule.notice_period 100 := by
    with_unfolding_all decide
  have h := c4_tiered_monotone ("AU", auRule) hmem htiers
  exact ⟨⟨hmem, htiers, le_rfl, by norm_num, by norm_num, hbelow⟩,
    h.1 "senior" 0 400 le_rfl (by norm_num),
    h.2 "senior" 100 (by norm_num) hbelow⟩

end WageRisk
